import Mathlib

/-!
# Verification of the SJUAnalytics derived-metrics and report engine

Shallow embedding of the pure computational core of the repository:
`report_engine.py` (metric normalizers, callout engine, post-game four
factors, player grading, narrative builder) and the TTL cache shared by
`kenpom_client.py` / `espn_client.py`.

Modelling conventions:
* Python floats are modelled as exact rationals (`ℚ`); `round(x, n)` is
  modelled as round-half-to-even on rationals.
* Python dict / pandas-row values are modelled by `PyVal` (number, string
  or null); dictionary access with a default (`d.get(k, default)`) is an
  association-list lookup.
* Fallible parsing (`float(v)`) is modelled by a total `Option`-returning
  decimal parser covering the plain decimal-literal subset of Python's
  float grammar (signs, digits, one decimal point, surrounding blanks).
-/

/-- A scalar value as found in a provider row / JSON dict: a number, a
string, or null/None.  Missing keys are modelled at the lookup level by
`Option PyVal`. -/
inductive PyVal where
  | num (q : ℚ)
  | str (s : String)
  | vNull
  deriving DecidableEq

/-- Numeric value of a list of decimal digit characters. -/
def digitsToNat (l : List Char) : ℕ :=
  l.foldl (fun a c => 10 * a + (c.toNat - 48)) 0

/-- All characters are decimal digits. -/
def allDigits (l : List Char) : Bool :=
  l.all (fun c => c.isDigit)

/-- Strip leading and trailing whitespace from a character list. -/
def trimChars (l : List Char) : List Char :=
  ((l.dropWhile Char.isWhitespace).reverse.dropWhile Char.isWhitespace).reverse

/-- Parse an unsigned decimal literal (`"12"`, `"12.5"`, `"12."`, `".5"`)
into mantissa and decimal-exponent: the value is `mantissa / 10 ^ exp`. -/
def parseUnsignedDec (l : List Char) : Option (ℕ × ℕ) :=
  match l.span (fun c => !(c == '.')) with
  | (intPart, rest) =>
    match rest with
    | [] =>
      if !intPart.isEmpty && allDigits intPart then
        some (digitsToNat intPart, 0)
      else none
    | _ :: frac =>
      if (!intPart.isEmpty || !frac.isEmpty) && allDigits intPart && allDigits frac then
        some (digitsToNat intPart * 10 ^ frac.length + digitsToNat frac, frac.length)
      else none

/-- Signed decimal literal with surrounding blanks, as mantissa/exponent. -/
def parseDec (s : String) : Option (ℤ × ℕ) :=
  match trimChars s.toList with
  | [] => none
  | '-' :: rest => (parseUnsignedDec rest).map (fun p => (-(p.1 : ℤ), p.2))
  | '+' :: rest => (parseUnsignedDec rest).map (fun p => ((p.1 : ℤ), p.2))
  | l => (parseUnsignedDec l).map (fun p => ((p.1 : ℤ), p.2))

/-- Model of Python `float(s)` on a string.  Returns `none` where Python
would raise `ValueError`.  (Exponent forms and `inf`/`nan` literals are
outside the modelled subset; no claim touches them.) -/
def parsePyFloat (s : String) : Option ℚ :=
  (parseDec s).map (fun p => (p.1 : ℚ) / 10 ^ p.2)

/-- `report_engine._safe_float`: `float(val)` with every parse failure
(non-numeric string, None) mapped to `0.0`. -/
def safe_float : PyVal → ℚ
  | .num q => q
  | .str s => (parsePyFloat s).getD 0
  | .vNull => 0

/-- Python `int(x)` on a float: truncation toward zero. -/
def pyInt (q : ℚ) : ℤ :=
  if q < 0 then ⌈q⌉ else ⌊q⌋

/-- Round-half-to-even on rationals, the rounding mode of Python's
built-in `round`. -/
def rhe (q : ℚ) : ℤ :=
  if q - ⌊q⌋ < 1 / 2 then ⌊q⌋
  else if 1 / 2 < q - ⌊q⌋ then ⌊q⌋ + 1
  else if ⌊q⌋ % 2 = 0 then ⌊q⌋ else ⌊q⌋ + 1

/-- Model of Python `round(x, d)`: round-half-to-even at `d` decimal
places. -/
def roundTo (q : ℚ) (d : ℕ) : ℚ :=
  (rhe (q * 10 ^ d) : ℚ) / 10 ^ d

/-- A provider row / JSON-ish dict: string keys to scalar values. -/
abbrev Row := List (String × PyVal)

/-- Python `d.get(key, default)` on a raw row. -/
def rowGet (r : Row) (k : String) (d : PyVal) : PyVal :=
  (r.lookup k).getD d

/-- A normalized metric dict as built by the `_overview` / `_ff` /
`_shooting` / `_ht` helpers: string keys to numbers.  (The few
string-valued keys those dicts also carry — team name, record, coach —
are never read by any computation modelled here and are omitted.) -/
abbrev StrMap := List (String × ℚ)

/-- Python `d.get(key, default)` on a normalized dict. -/
def mget (m : StrMap) (k : String) (d : ℚ) : ℚ :=
  (m.lookup k).getD d

/-- Python `d[key]` on a normalized dict.  Every bracket access in the
callout engine reads a key that the corresponding normalizer always
provides, so the (never used) fallback value is irrelevant. -/
def item (m : StrMap) (k : String) : ℚ :=
  mget m k 0

/-- `report_engine` rank coercion pattern
`int(_safe_float(row.get(Key, 999)))`: the `999` default applies only
when the key is missing; a present value goes through `_safe_float`
(which yields `0.0` on parse failure) and `int`. -/
def coerceRank (v : Option PyVal) : ℤ :=
  pyInt (safe_float (v.getD (PyVal.num 999)))

/-- `report_engine` numeric coercion pattern `_safe_float(row.get(Key))`:
a missing key gives None, hence `0.0`. -/
def coerceNum (v : Option PyVal) : ℚ :=
  safe_float (v.getD PyVal.vNull)

-- quick sanity checks of the value model
example : parseDec "25" = some (25, 0) := by decide
example : parseDec " -2.5 " = some (-25, 1) := by decide
example : parseDec "N/A" = none := by decide
example : safe_float (PyVal.str "25") = 25 := by
  norm_num [safe_float, parsePyFloat,
    show parseDec "25" = some (25, 0) from by decide]
example : safe_float (PyVal.str "-2.5") = -5/2 := by
  norm_num [safe_float, parsePyFloat,
    show parseDec "-2.5" = some (-25, 1) from by decide]
example : safe_float (PyVal.str "N/A") = 0 := by
  norm_num [safe_float, parsePyFloat,
    show parseDec "N/A" = none from by decide]
example : safe_float PyVal.vNull = 0 := by norm_num [safe_float]
example : coerceRank none = 999 := by
  norm_num [coerceRank, safe_float, pyInt]
example : coerceRank (some (PyVal.str "N/A")) = 0 := by
  norm_num [coerceRank, safe_float, parsePyFloat, pyInt,
    show parseDec "N/A" = none from by decide]
example : roundTo (542/10) 1 = 542/10 := by norm_num [roundTo, rhe]
example : roundTo (12345/1000) 1 = 123/10 := by norm_num [roundTo, rhe]
example : roundTo (685/10) 0 = 68 := by norm_num [roundTo, rhe]
example : roundTo (695/10) 0 = 70 := by norm_num [roundTo, rhe]

/-! ## Python number formatting -/

/-- Decimal rendering of `n / 10 ^ d` with exactly `d` digits after the
point (none when `d = 0`), as produced by Python's `:.df` format once the
value has been rounded to an integer multiple of `10 ^ (-d)`. -/
def formatScaled (n : ℤ) (d : ℕ) : String :=
  if d = 0 then n.repr
  else
    let m := n.natAbs
    let ip := (m / 10 ^ d).repr
    let fpr := (m % 10 ^ d).repr
    let fp := String.mk (List.replicate (d - fpr.length) '0') ++ fpr
    (if n < 0 then "-" else "") ++ ip ++ "." ++ fp

/-- Model of a Python f-string `:.df` fixed-point format: round
half-to-even at `d` decimals, then print with exactly `d` decimals. -/
def formatFixed (d : ℕ) (q : ℚ) : String :=
  formatScaled (rhe (q * 10 ^ d)) d

/-- Smallest decimal exponent (up to the given fuel) making `q` an
integer; 64 is ample for every decimal produced by this code base. -/
def decExp : ℕ → ℚ → ℕ
  | 0, _ => 0
  | fuel + 1, q => if q.den = 1 then 0 else 1 + decExp fuel (q * 10)

/-- Model of Python `str(x)` / `f"{x}"` on a float: shortest decimal
form, with integral floats printed with a trailing `.0`. -/
def pyFloatStr (q : ℚ) : String :=
  let k := decExp 64 q
  if k = 0 then (pyInt q).repr ++ ".0"
  else formatScaled (q * 10 ^ k).num k

/-- Rendering of an integer-valued dict entry in an f-string (rank fields
are Python ints; the normalized dict stores them as integral rationals). -/
def showIntQ (q : ℚ) : String :=
  (pyInt q).repr

-- formatting sanity checks
example : formatFixed 1 (542/10) = "54.2" := by
  norm_num [formatFixed, rhe]
  decide
example : formatFixed 1 (13 : ℚ) = "13.0" := by
  norm_num [formatFixed, rhe]
  decide
example : formatFixed 3 (1/4 : ℚ) = "0.250" := by
  norm_num [formatFixed, rhe]
  decide
example : pyFloatStr (542/10) = "54.2" := by
  norm_num [pyFloatStr, decExp, pyInt, Rat.den_intCast]
  decide

/-! ## Metric normalizers (`report_engine._overview`, `_ff`, `_shooting`,
`_ht`)

Each takes the raw provider row(s) selected by `_row` (a missing team
gives an empty row, so every lookup misses) and produces the normalized
numeric dict with exactly the keys of the source dict literal.  The
string-valued keys of `_overview` (`team`, `record`, `coach`) are
omitted: no modelled computation reads them. -/

/-- `_overview` (numeric keys). -/
def overviewDict (r : Row) : StrMap :=
  [ ("adj_em",     coerceNum  (r.lookup "AdjEM")),
    ("rank_em",    (coerceRank (r.lookup "RankAdjEM") : ℚ)),
    ("adj_oe",     coerceNum  (r.lookup "AdjOE")),
    ("rank_oe",    (coerceRank (r.lookup "RankAdjOE") : ℚ)),
    ("adj_de",     coerceNum  (r.lookup "AdjDE")),
    ("rank_de",    (coerceRank (r.lookup "RankAdjDE") : ℚ)),
    ("tempo",      coerceNum  (r.lookup "AdjTempo")),
    ("rank_tempo", (coerceRank (r.lookup "RankAdjTempo") : ℚ)),
    ("luck",       coerceNum  (r.lookup "Luck")),
    ("sos",        coerceNum  (r.lookup "SOS")),
    ("rank_sos",   (coerceRank (r.lookup "RankSOS") : ℚ)) ]

/-- `_ff`. -/
def ffDict (r : Row) : StrMap :=
  [ ("efg_pct",   coerceNum  (r.lookup "eFG_Pct")),
    ("rank_efg",  (coerceRank (r.lookup "RankeFG_Pct") : ℚ)),
    ("to_pct",    coerceNum  (r.lookup "TO_Pct")),
    ("rank_to",   (coerceRank (r.lookup "RankTO_Pct") : ℚ)),
    ("or_pct",    coerceNum  (r.lookup "OR_Pct")),
    ("rank_or",   (coerceRank (r.lookup "RankOR_Pct") : ℚ)),
    ("ft_rate",   coerceNum  (r.lookup "FT_Rate")),
    ("rank_ft",   (coerceRank (r.lookup "RankFT_Rate") : ℚ)),
    ("d_efg",     coerceNum  (r.lookup "DeFG_Pct")),
    ("rank_defg", (coerceRank (r.lookup "RankDeFG_Pct") : ℚ)),
    ("d_to",      coerceNum  (r.lookup "DTO_Pct")),
    ("rank_dto",  (coerceRank (r.lookup "RankDTO_Pct") : ℚ)),
    ("d_or",      coerceNum  (r.lookup "DOR_Pct")),
    ("rank_dor",  (coerceRank (r.lookup "RankDOR_Pct") : ℚ)),
    ("d_ft",      coerceNum  (r.lookup "DFT_Rate")),
    ("rank_dft",  (coerceRank (r.lookup "RankDFT_Rate") : ℚ)) ]

/-- `_shooting` (from the misc-stats row and the point-distribution row).
Note: this dict has no `"rank_defg"` key — the defensive-eFG rank lives
only in the `_ff` dict. -/
def shootingDict (ms pdist : Row) : StrMap :=
  [ ("fg3_pct",     coerceNum  (ms.lookup "FG3Pct")),
    ("rank_fg3",    (coerceRank (ms.lookup "RankFG3Pct") : ℚ)),
    ("fg2_pct",     coerceNum  (ms.lookup "FG2Pct")),
    ("rank_fg2",    (coerceRank (ms.lookup "RankFG2Pct") : ℚ)),
    ("ft_pct",      coerceNum  (ms.lookup "FTPct")),
    ("rank_ft",     (coerceRank (ms.lookup "RankFTPct") : ℚ)),
    ("block_pct",   coerceNum  (ms.lookup "BlockPct")),
    ("rank_block",  (coerceRank (ms.lookup "RankBlockPct") : ℚ)),
    ("steal_rate",  coerceNum  (ms.lookup "StlRate")),
    ("rank_steal",  (coerceRank (ms.lookup "RankStlRate") : ℚ)),
    ("assist_rate", coerceNum  (ms.lookup "ARate")),
    ("rank_assist", (coerceRank (ms.lookup "RankARate") : ℚ)),
    ("f3g_rate",    coerceNum  (ms.lookup "F3GRate")),
    ("rank_f3g",    (coerceRank (ms.lookup "RankF3GRate") : ℚ)),
    ("avg2_dist",   coerceNum  (ms.lookup "Avg2PADist")),
    ("pct_from_3",  coerceNum  (pdist.lookup "OffFg3")),
    ("pct_from_2",  coerceNum  (pdist.lookup "OffFg2")),
    ("pct_from_ft", coerceNum  (pdist.lookup "OffFt")) ]

/-- `_ht`. -/
def htDict (r : Row) : StrMap :=
  [ ("avg_hgt",    coerceNum  (r.lookup "AvgHgt")),
    ("rank_hgt",   (coerceRank (r.lookup "AvgHgtRank") : ℚ)),
    ("hgt_eff",    coerceNum  (r.lookup "HgtEff")),
    ("rank_heff",  (coerceRank (r.lookup "HgtEffRank") : ℚ)),
    ("experience", coerceNum  (r.lookup "Exp")),
    ("rank_exp",   (coerceRank (r.lookup "ExpRank") : ℚ)),
    ("bench",      coerceNum  (r.lookup "Bench")),
    ("rank_bench", (coerceRank (r.lookup "BenchRank") : ℚ)),
    ("continuity", coerceNum  (r.lookup "Continuity")) ]

/-! ## Callout engine (`report_engine._generate_callouts`) -/

/-- A coaching callout: priority 1 = critical, 2 = important, 3 = note. -/
structure Callout where
  priority : ℕ
  label : String
  detail : String
  deriving DecidableEq

/-- Rule 1 condition: tempo gap of at least 3 possessions/40min. -/
def fires_pace (hov aov : StrMap) : Prop :=
  |item hov "tempo" - item aov "tempo"| ≥ 3

instance (hov aov : StrMap) : Decidable (fires_pace hov aov) := by
  unfold fires_pace; infer_instance

/-- Rule 2 condition, home branch: home offensive-rebound% beats the away
defensive OR% allowed by more than 3 points. -/
def fires_reb_home (hff aff : StrMap) : Prop :=
  item hff "or_pct" > item aff "d_or" + 3

instance (hff aff : StrMap) : Decidable (fires_reb_home hff aff) := by
  unfold fires_reb_home; infer_instance

/-- Rule 2 condition, away branch. -/
def fires_reb_away (hff aff : StrMap) : Prop :=
  item aff "or_pct" > item hff "d_or" + 3

instance (hff aff : StrMap) : Decidable (fires_reb_away hff aff) := by
  unfold fires_reb_away; infer_instance

/-- Rule 3 condition, home branch, exactly as coded: the second conjunct
reads `rank_defg` from the away *shooting* dict with default 999
(`away_sh.get("rank_defg", 999) >= 200`). -/
def fires_3pt_home (hsh ash : StrMap) : Prop :=
  item hsh "rank_fg3" ≤ 50 ∧ mget ash "rank_defg" 999 ≥ 200

instance (hsh ash : StrMap) : Decidable (fires_3pt_home hsh ash) := by
  unfold fires_3pt_home; infer_instance

/-- Rule 3 condition, away branch. -/
def fires_3pt_away (hsh ash : StrMap) : Prop :=
  item ash "rank_fg3" ≤ 50 ∧ mget hsh "rank_defg" 999 ≥ 200

instance (hsh ash : StrMap) : Decidable (fires_3pt_away hsh ash) := by
  unfold fires_3pt_away; infer_instance

/-- Rule 4 condition, home branch: home turnover% more than 3 points
below the away forced-turnover%. -/
def fires_to_home (hff aff : StrMap) : Prop :=
  item hff "to_pct" < item aff "d_to" - 3

instance (hff aff : StrMap) : Decidable (fires_to_home hff aff) := by
  unfold fires_to_home; infer_instance

/-- Rule 4 condition, away branch. -/
def fires_to_away (hff aff : StrMap) : Prop :=
  item aff "to_pct" < item hff "d_to" - 3

instance (hff aff : StrMap) : Decidable (fires_to_away hff aff) := by
  unfold fires_to_away; infer_instance

/-- Rule 5 condition (home side only in the source): free-throw rate at
least 0.40 and a top-50 national rank. -/
def fires_ftr_home (hff : StrMap) : Prop :=
  item hff "ft_rate" ≥ 2/5 ∧ item hff "rank_ft" ≤ 50

instance (hff : StrMap) : Decidable (fires_ftr_home hff) := by
  unfold fires_ftr_home; infer_instance

/-- Rule 6 condition: absolute AdjEM gap of at least 8. -/
def fires_em (hov aov : StrMap) : Prop :=
  |item hov "adj_em" - item aov "adj_em"| ≥ 8

instance (hov aov : StrMap) : Decidable (fires_em hov aov) := by
  unfold fires_em; infer_instance

/-- Rule 7 condition (home side only in the source): home experience
exceeds away experience by more than 0.5. -/
def fires_exp_home (hht aht : StrMap) : Prop :=
  item hht "experience" > item aht "experience" + 1/2

instance (hht aht : StrMap) : Decidable (fires_exp_home hht aht) := by
  unfold fires_exp_home; infer_instance

/-- Rule 8 condition (home side only in the source): home assist rate at
least 0.60 with a top-50 national rank. -/
def fires_assist_home (hsh : StrMap) : Prop :=
  item hsh "assist_rate" ≥ 3/5 ∧ item hsh "rank_assist" ≤ 50

instance (hsh : StrMap) : Decidable (fires_assist_home hsh) := by
  unfold fires_assist_home; infer_instance

/-- The unsorted callout list, appended in source order (tempo, the two
rebounding branches, the two 3PT branches, the two turnover branches,
free-throw rate, efficiency gap, experience, assist rate). -/
def rawCallouts (hov aov hff aff hsh ash hht aht : StrMap)
    (home_team away_team : String) : List Callout :=
  (if fires_pace hov aov then
    [⟨1, "⚡ Pace Mismatch",
      (if item hov "tempo" > item aov "tempo" then home_team else away_team) ++
      " plays " ++ formatFixed 1 |item hov "tempo" - item aov "tempo"| ++
      " poss/40min faster than " ++
      (if item hov "tempo" > item aov "tempo" then away_team else home_team) ++
      ". The faster team benefits from transition opportunities; the slower team benefits from grinding possessions."⟩]
   else []) ++
  (if fires_reb_home hff aff then
    [⟨1, "📦 " ++ home_team ++ " Offensive Glass Edge",
      home_team ++ " OR% " ++ formatFixed 1 (item hff "or_pct") ++ "% vs " ++
      away_team ++ " DOR% allowed " ++ formatFixed 1 (item aff "d_or") ++
      "%. Crash the boards — second chance points will be available."⟩]
   else []) ++
  (if fires_reb_away hff aff then
    [⟨1, "📦 Limit " ++ away_team ++ " Offensive Rebounds",
      away_team ++ " OR% " ++ formatFixed 1 (item aff "or_pct") ++ "% vs " ++
      home_team ++ " DOR% " ++ formatFixed 1 (item hff "d_or") ++
      "%. Box out — giving up extra possessions here is a critical risk."⟩]
   else []) ++
  (if fires_3pt_home hsh ash then
    [⟨1, "🎯 " ++ home_team ++ " 3PT Attack",
      home_team ++ " shoots " ++ formatFixed 1 (item hsh "fg3_pct") ++
      "% from 3 (#" ++ showIntQ (item hsh "rank_fg3") ++ " nationally). " ++
      away_team ++ " struggles defending the arc (#" ++
      (match ash.lookup "rank_defg" with
       | some v => showIntQ v
       | none => "?") ++
      " eFG% allowed). Prioritize catch-and-shoot opportunities."⟩]
   else []) ++
  (if fires_3pt_away hsh ash then
    [⟨1, "🚫 Contain " ++ away_team ++ " 3PT Shooters",
      away_team ++ " shoots " ++ formatFixed 1 (item ash "fg3_pct") ++
      "% from 3 (#" ++ showIntQ (item ash "rank_fg3") ++
      "). Close out hard on their perimeter — they are dangerous from deep."⟩]
   else []) ++
  (if fires_to_home hff aff then
    [⟨2, "🔒 " ++ home_team ++ " Ball Security",
      home_team ++ " TO% " ++ formatFixed 1 (item hff "to_pct") ++ "% vs " ++
      away_team ++ " forces " ++ formatFixed 1 (item aff "d_to") ++
      "% TO rate. The pressure defense is a real threat — protect the ball in the half-court."⟩]
   else []) ++
  (if fires_to_away hff aff then
    [⟨2, "💥 Force " ++ away_team ++ " Turnovers",
      away_team ++ " has a high TO% (" ++ formatFixed 1 (item aff "to_pct") ++
      "%). " ++ home_team ++ " forces " ++ formatFixed 1 (item hff "d_to") ++
      "% — apply pressure and generate transition buckets."⟩]
   else []) ++
  (if fires_ftr_home hff then
    [⟨2, "🆓 " ++ home_team ++ " Attack the Paint",
      home_team ++ " gets to the line at a top-" ++ showIntQ (item hff "rank_ft") ++
      " national rate. Aggressive drives and post-ups will generate free throws against this defense."⟩]
   else []) ++
  (if fires_em hov aov then
    [⟨2, "📊 Significant Efficiency Gap",
      (if item hov "adj_em" - item aov "adj_em" > 0 then home_team else away_team) ++
      " has a +" ++ formatFixed 1 |item hov "adj_em" - item aov "adj_em"| ++
      " AdjEM advantage over " ++
      (if item hov "adj_em" - item aov "adj_em" > 0 then away_team else home_team) ++
      ". The superior team should look to control pace and avoid a shoot-out that could randomize outcomes."⟩]
   else []) ++
  (if fires_exp_home hht aht then
    [⟨3, "🎓 " ++ home_team ++ " Experience Edge",
      home_team ++ " experience rating: " ++ formatFixed 2 (item hht "experience") ++
      " vs " ++ away_team ++ ": " ++ formatFixed 2 (item aht "experience") ++
      ". More seasoned roster — expect composure in close late-game situations."⟩]
   else []) ++
  (if fires_assist_home hsh then
    [⟨3, "🤝 " ++ home_team ++ " Ball Movement",
      home_team ++ " assist rate is top-" ++ showIntQ (item hsh "rank_assist") ++
      " nationally (" ++ formatFixed 2 (item hsh "assist_rate") ++
      "). Their offense flows through passing — disrupt the ball handler to disrupt their offense."⟩]
   else [])

/-- Priority order for the final sort. -/
def calloutLE (x y : Callout) : Prop :=
  x.priority ≤ y.priority

instance : DecidableRel calloutLE := fun x y => Nat.decLe x.priority y.priority

instance : IsTotal Callout calloutLE := ⟨fun x y => Nat.le_total x.priority y.priority⟩

instance : IsTrans Callout calloutLE := ⟨fun _ _ _ h h2 => Nat.le_trans h h2⟩

/-- `_generate_callouts`: build the raw list, stable-sort by priority
ascending (Python `list.sort(key=priority)`), cap at 8. -/
def generate_callouts (hov aov hff aff hsh ash hht aht : StrMap)
    (home_team away_team : String) : List Callout :=
  (List.insertionSort calloutLE
    (rawCallouts hov aov hff aff hsh ash hht aht home_team away_team)).take 8

/-- The shooting dict produced by `_shooting` never carries a
`"rank_defg"` key, so the engine's `away_sh.get("rank_defg", 999)`
returns the default 999 for every profile the scout-report pipeline can
build. -/
theorem mget_shootingDict_rank_defg (ms pdist : Row) :
    mget (shootingDict ms pdist) "rank_defg" 999 = 999 := rfl

/-! ## Post-game four factors (`report_engine._compute_ff`) -/

/-- The dict returned by `_compute_ff`. -/
structure FFOut where
  efg_pct : ℚ
  to_pct : ℚ
  or_pct : ℚ
  ft_rate : ℚ
  possessions : ℚ
  ppp : ℚ
  pts : ℤ
  fg_made : ℤ
  fg_att : ℤ
  fg3_made : ℤ
  fg3_att : ℤ
  ft_made : ℤ
  ft_att : ℤ
  oreb : ℤ
  tov : ℤ
  deriving DecidableEq

/-- `_compute_ff`'s local helper `ts(key)`:
`_safe_float(team_stats.get(key, 0))`. -/
def ts (stats : Row) (key : String) : ℚ :=
  safe_float (rowGet stats key (PyVal.num 0))

/-- `ts("turnovers") or ts("totalTurnovers")`: Python `or` falls through
on a falsy (zero) first operand. -/
def resolveTov (stats : Row) : ℚ :=
  if ts stats "turnovers" ≠ 0 then ts stats "turnovers"
  else ts stats "totalTurnovers"

/-- `ts("points") or (2 * fg_made + fg3_made + ft_made)`: Python `or`
falls through on a falsy (zero) first operand. -/
def resolvePts (stats : Row) : ℚ :=
  if ts stats "points" ≠ 0 then ts stats "points"
  else 2 * ts stats "fieldGoalsMade" + ts stats "threePointFieldGoalsMade" +
    ts stats "freeThrowsMade"

/-- `_compute_ff`: derive the four factors from raw box-score totals.
`0.475` is written `19/40`; Python truthiness guards (`if fg_att else 0`)
are written as `≠ 0` tests. -/
def compute_ff (team_stats : Row) : FFOut :=
  let fg_made := ts team_stats "fieldGoalsMade"
  let fg_att := ts team_stats "fieldGoalsAttempted"
  let fg3_made := ts team_stats "threePointFieldGoalsMade"
  let fg3_att := ts team_stats "threePointFieldGoalsAttempted"
  let ft_made := ts team_stats "freeThrowsMade"
  let ft_att := ts team_stats "freeThrowsAttempted"
  let oreb := ts team_stats "offensiveRebounds"
  let dreb := ts team_stats "defensiveRebounds"
  let tov := resolveTov team_stats
  let pts := resolvePts team_stats
  let possessions := if fg_att ≠ 0 then fg_att - oreb + tov + (19/40) * ft_att else 0
  let efg := if fg_att ≠ 0 then (fg_made + (1/2) * fg3_made) / fg_att else 0
  let to_pct := if possessions ≠ 0 then tov / possessions else 0
  let or_pct := if oreb + dreb ≠ 0 then oreb / (oreb + dreb) else 0
  let ft_rate := if fg_att ≠ 0 then ft_made / fg_att else 0
  let ppp := if possessions ≠ 0 then pts / possessions else 0
  { efg_pct := roundTo (efg * 100) 1,
    to_pct := roundTo (to_pct * 100) 1,
    or_pct := roundTo (or_pct * 100) 1,
    ft_rate := roundTo ft_rate 3,
    possessions := roundTo possessions 1,
    ppp := roundTo ppp 3,
    pts := pyInt pts,
    fg_made := pyInt fg_made,
    fg_att := pyInt fg_att,
    fg3_made := pyInt fg3_made,
    fg3_att := pyInt fg3_att,
    ft_made := pyInt ft_made,
    ft_att := pyInt ft_att,
    oreb := pyInt oreb,
    tov := pyInt tov }

/-- The derived metrics named by the specification. -/
structure FFFormulas where
  possessions : ℚ
  efg_pct : ℚ
  to_pct : ℚ
  or_pct : ℚ
  ft_rate : ℚ
  ppp : ℚ
  deriving DecidableEq

/-- The specification's fixed four-factors formulas, written from the
spec text (not the source): possessions = FGA − OREB + TOV + 0.475×FTA
(0 if FGA is 0); eFG% = (FGM + 0.5×3PM)/FGA×100 (0 if FGA is 0);
TO% = TOV/poss×100 (0 if poss is 0); OR% = OREB/(OREB+DREB)×100 (0 if the
denominator is 0); FT-rate = FTM/FGA (0 if FGA is 0); PPP = points/poss
(0 if poss is 0); percentages rounded to 1 decimal, FT-rate and PPP to 3.
The resolved turnover and points totals are taken as inputs. -/
def specFourFactors (fgm fga fg3m ftm fta oreb dreb tov pts : ℚ) : FFFormulas :=
  let poss := if fga = 0 then 0 else fga - oreb + tov + (19/40) * fta
  { possessions := poss,
    efg_pct := roundTo (if fga = 0 then 0 else (fgm + (1/2) * fg3m) / fga * 100) 1,
    to_pct := roundTo (if poss = 0 then 0 else tov / poss * 100) 1,
    or_pct := roundTo (if oreb + dreb = 0 then 0 else oreb / (oreb + dreb) * 100) 1,
    ft_rate := roundTo (if fga = 0 then 0 else ftm / fga) 3,
    ppp := roundTo (if poss = 0 then 0 else pts / poss) 3 }

/-- The claim's points rule, written from the claim text: the derived
total `2×FGM + 3PM + FTM` is used only when no points field is present in
the input. -/
def claimPoints (stats : Row) : ℚ :=
  match stats.lookup "points" with
  | some v => safe_float v
  | none => 2 * ts stats "fieldGoalsMade" + ts stats "threePointFieldGoalsMade" +
      ts stats "freeThrowsMade"

/-! ## Player grading (`report_engine._grade_players`) -/

/-- Python `str(v)` on a row value (player rows carry strings; numeric
values render as floats). -/
def pyStrOf : PyVal → String
  | .str s => s
  | .num q => pyFloatStr q
  | .vNull => "None"

/-- `str(v).replace(":", ".")` — the single-character substitution used
on the `MIN` column. -/
def colonToDot (s : String) : String :=
  String.mk (s.toList.map (fun c => if c == ':' then '.' else c))

/-- Minutes parsing in `_grade_players`:
`_safe_float(str(row.get("MIN", "0")).replace(":", "."))`. -/
def parseMin (v : PyVal) : ℚ :=
  safe_float (PyVal.str (colonToDot (pyStrOf v)))

/-- One row of the grades table, with every column formatted as the
source formats it (`Eff/40` and `TS%` are valid Python dict keys but not
Lean field names; they appear here as `eff40` and `ts_pct_str`). -/
structure GradeRow where
  player : String
  pos : String
  min : String
  pts : String
  ast : String
  reb : String
  toCol : String
  ts_pct_str : String
  eff40 : String
  grade : String
  deriving DecidableEq

/-- The body of `_grade_players`' per-player loop: `none` models
`continue` (minutes under 5). -/
def gradeOne (row : Row) : Option GradeRow :=
  let mins := parseMin (rowGet row "MIN" (PyVal.str "0"))
  let pts := safe_float (rowGet row "PTS" (PyVal.num 0))
  let ast := safe_float (rowGet row "AST" (PyVal.num 0))
  let reb := safe_float (rowGet row "REB" (PyVal.num 0))
  let tov := safe_float (rowGet row "TO" (rowGet row "TOV" (PyVal.num 0)))
  let fga := safe_float (rowGet row "FGA" (PyVal.num 0))
  if mins < 5 then none
  else
    let eff := if mins > 0 then (pts + (7/10) * ast + (1/2) * reb - tov) / mins * 40 else 0
    let ts_pct := if fga ≠ 0 then pts / (2 * fga) else 0
    let grade :=
      if eff ≥ 28 then "A+"
      else if eff ≥ 22 then "A"
      else if eff ≥ 16 then "B"
      else if eff ≥ 10 then "C"
      else if eff ≥ 5 then "D"
      else "F"
    some
      { player := pyStrOf (rowGet row "name" (PyVal.str "")),
        pos := pyStrOf (rowGet row "position" (PyVal.str "")),
        min := formatFixed 0 mins,
        pts := formatFixed 0 pts,
        ast := formatFixed 0 ast,
        reb := formatFixed 0 reb,
        toCol := formatFixed 0 tov,
        ts_pct_str := if ts_pct ≠ 0 then formatFixed 1 (ts_pct * 100) ++ "%" else "—",
        eff40 := formatFixed 1 eff,
        grade := grade }

/-- `_grade_players`: grade each row, dropping the under-5-minutes rows;
an empty table in gives an empty table out. -/
def grade_players (players : List Row) : List GradeRow :=
  players.filterMap gradeOne

/-! ## Narrative builder (`report_engine._build_postgame_narrative`) -/

/-- A Python number: the int/float distinction matters for f-string
rendering (`f"{78}"` is `"78"` but `f"{78.0}"` is `"78.0"`). -/
inductive PyNum where
  | pint (n : ℤ)
  | pfloat (q : ℚ)
  deriving DecidableEq

/-- Numeric value of a Python number. -/
def PyNum.toQ : PyNum → ℚ
  | .pint n => n
  | .pfloat q => q

/-- Python subtraction: int − int is int, anything else is float. -/
def PyNum.sub : PyNum → PyNum → PyNum
  | .pint a, .pint b => .pint (a - b)
  | a, b => .pfloat (a.toQ - b.toQ)

/-- Python `abs`, preserving int/float-ness. -/
def pyAbs : PyNum → PyNum
  | .pint n => .pint |n|
  | .pfloat q => .pfloat |q|

/-- Python `f"{x}"` on a number. -/
def pyNumStr : PyNum → String
  | .pint n => n.repr
  | .pfloat q => pyFloatStr q

/-- Substring test on character lists (Python's `needle in hay`). -/
def isInfixChars (needle : List Char) : List Char → Bool
  | [] => needle.isEmpty
  | c :: t => needle.isPrefixOf (c :: t) || isInfixChars needle t

/-- Python `needle in hay` on strings. -/
def pyIn (needle hay : String) : Bool :=
  isInfixChars needle.toList hay.toList

/-- `_factor_winner`. -/
def factor_winner (sju_val opp_val : ℚ) (higher_is_better : Bool) : String :=
  if higher_is_better then (if sju_val > opp_val then "SJU ✅" else "OPP ✅")
  else (if sju_val < opp_val then "SJU ✅" else "OPP ✅")

/-- The `ff_battle` dict of `generate_postgame_report`, as the ordered
list of (factor, winner, comparison text). -/
def ff_battle (sju_ff opp_ff : FFOut) : List (String × String × String) :=
  [ ("eFG%", factor_winner sju_ff.efg_pct opp_ff.efg_pct true,
      "SJU " ++ pyFloatStr sju_ff.efg_pct ++ "% vs OPP " ++ pyFloatStr opp_ff.efg_pct ++ "%"),
    ("TO%", factor_winner sju_ff.to_pct opp_ff.to_pct false,
      "SJU " ++ pyFloatStr sju_ff.to_pct ++ "% vs OPP " ++ pyFloatStr opp_ff.to_pct ++ "%"),
    ("OR%", factor_winner sju_ff.or_pct opp_ff.or_pct true,
      "SJU " ++ pyFloatStr sju_ff.or_pct ++ "% vs OPP " ++ pyFloatStr opp_ff.or_pct ++ "%"),
    ("FT Rate", factor_winner sju_ff.ft_rate opp_ff.ft_rate true,
      "SJU " ++ formatFixed 3 sju_ff.ft_rate ++ " vs OPP " ++ formatFixed 3 opp_ff.ft_rate) ]

/-- `_build_postgame_narrative`, kept as its `lines` list (the function
returns the single-space join, `narrative_join`). -/
def narrative_lines (sju_team opp_team : String) (sju_score opp_score : PyNum)
    (sju_ff opp_ff : FFOut) (battle : List (String × String × String)) : List String :=
  let result := if sju_score.toQ > opp_score.toQ then "won" else "lost"
  let margin := pyAbs (sju_score.sub opp_score)
  let sju_wins := (battle.filter (fun v => pyIn "SJU" v.2.1)).length
  let efg_diff := sju_ff.efg_pct - opp_ff.efg_pct
  let reb_diff := sju_ff.or_pct - opp_ff.or_pct
  let to_diff := sju_ff.to_pct - opp_ff.to_pct
  let ppp_diff := sju_ff.ppp - opp_ff.ppp
  [sju_team ++ " " ++ result ++ " " ++ pyNumStr sju_score ++ "-" ++ pyNumStr opp_score ++
    " (margin: " ++ pyNumStr margin ++ " pts). SJU won " ++ Nat.repr sju_wins ++
    " of 4 Four Factors."] ++
  (if |efg_diff| ≥ 5 then
    ["Shooting was the decisive factor: " ++
      (if efg_diff > 0 then sju_team else opp_team) ++ " shot " ++
      formatFixed 1 (max sju_ff.efg_pct opp_ff.efg_pct) ++ "% eFG% vs " ++
      formatFixed 1 (min sju_ff.efg_pct opp_ff.efg_pct) ++ "% — a " ++
      formatFixed 1 |efg_diff| ++ "-point gap."]
   else []) ++
  (if |reb_diff| ≥ 8 then
    ["Offensive rebounding was a key battleground: " ++
      (if reb_diff > 0 then sju_team else opp_team) ++ " dominated the glass (" ++
      formatFixed 1 (max sju_ff.or_pct opp_ff.or_pct) ++ "% vs " ++
      formatFixed 1 (min sju_ff.or_pct opp_ff.or_pct) ++ "%)."]
   else []) ++
  (if |to_diff| ≥ 5 then
    ["Turnover margin hurt " ++
      (if to_diff > 0 then sju_team else opp_team) ++ ": " ++
      formatFixed 1 (max sju_ff.to_pct opp_ff.to_pct) ++ "% TO rate vs " ++
      formatFixed 1 (min sju_ff.to_pct opp_ff.to_pct) ++ "%."]
   else []) ++
  ["Scoring efficiency: SJU " ++ formatFixed 3 sju_ff.ppp ++ " PPP vs " ++
    opp_team ++ " " ++ formatFixed 3 opp_ff.ppp ++ " PPP (" ++
    (if ppp_diff > 0 then "SJU advantage" else "opponent advantage") ++ ": " ++
    formatFixed 3 |ppp_diff| ++ ")."]

/-- `" ".join(lines)`: the string the narrative builder returns. -/
def narrative_join (lines : List String) : String :=
  String.intercalate " " lines

/-! ## Post-game report (`report_engine.generate_postgame_report`) -/

/-- One side of an ESPN box score as built by `espn_client.get_box_score`
(`name`, `score`, `team_stats`, `players`; the header score may be
missing, hence `Option`). -/
structure Side where
  name : String
  score : Option PyVal
  team_stats : Row
  players : List Row

/-- The box-score dict: at most a `"home"` and an `"away"` entry. -/
structure Box where
  home : Option Side
  away : Option Side

/-- `not box` — the dict is empty (the source raises `ValueError` then;
the theorems about the report assume a non-empty box). -/
def boxNonempty (b : Box) : Prop :=
  b.home.isSome ∨ b.away.isSome

/-- The lowercase of a string (Python `str.lower`). -/
def lowerStr (s : String) : String :=
  String.mk (s.toList.map Char.toLower)

/-- `side in box and sju_team_name.lower() in box[side]["name"].lower()`. -/
def sideMatches (s : Option Side) (sju_team_name : String) : Bool :=
  match s with
  | some sd => pyIn (lowerStr sju_team_name) (lowerStr sd.name)
  | none => false

/-- `d.get("name", default)` on a possibly-absent side dict. -/
def sideName (s : Option Side) (d : String) : String :=
  match s with
  | some sd => sd.name
  | none => d

/-- `d.get("score", 0)` on a possibly-absent side dict. -/
def sideScore (s : Option Side) : PyVal :=
  match s with
  | some sd => sd.score.getD (PyVal.num 0)
  | none => PyVal.num 0

/-- `d.get("team_stats", {})` on a possibly-absent side dict. -/
def sideStats (s : Option Side) : Row :=
  match s with
  | some sd => sd.team_stats
  | none => []

/-- `d.get("players", empty)` on a possibly-absent side dict. -/
def sidePlayers (s : Option Side) : List Row :=
  match s with
  | some sd => sd.players
  | none => []

/-- The dict returned by `generate_postgame_report` (`ff_battle` appears
as `battle`). -/
structure Report where
  game_id : String
  sju_team : String
  opp_team : String
  sju_score : ℤ
  opp_score : ℤ
  result : String
  sju_ff : FFOut
  opp_ff : FFOut
  battle : List (String × String × String)
  player_grades : List GradeRow
  narrative : String

/-- `generate_postgame_report` after the box score has been fetched.
The SJU side is searched home-first; when neither side matches,
`sju_side` is `None`, so `opp_side = "home"` (because `None != "home"`)
and the SJU data is the empty dict. -/
def generate_postgame_report (game_id : String) (box : Box)
    (sju_team_name : String) : Report :=
  let sju_side : Option Bool :=
    if sideMatches box.home sju_team_name then some true
    else if sideMatches box.away sju_team_name then some false
    else none
  let opp_is_away : Bool := sju_side = some true
  let sju_data : Option Side :=
    match sju_side with
    | some true => box.home
    | some false => box.away
    | none => none
  let opp_data : Option Side := if opp_is_away then box.away else box.home
  let sju_ff := compute_ff (sideStats sju_data)
  let opp_ff := compute_ff (sideStats opp_data)
  let battle := ff_battle sju_ff opp_ff
  let player_grades := grade_players (sidePlayers sju_data)
  let sju_score := safe_float (sideScore sju_data)
  let opp_score := safe_float (sideScore opp_data)
  let narrative := narrative_join (narrative_lines
    (sideName sju_data sju_team_name) (sideName opp_data "Opponent")
    (PyNum.pfloat sju_score) (PyNum.pfloat opp_score) sju_ff opp_ff battle)
  { game_id := game_id,
    sju_team := sideName sju_data sju_team_name,
    opp_team := sideName opp_data "Opponent",
    sju_score := pyInt sju_score,
    opp_score := pyInt opp_score,
    result := if sju_score > opp_score then "W" else "L",
    sju_ff := sju_ff,
    opp_ff := opp_ff,
    battle := battle,
    player_grades := player_grades,
    narrative := narrative }

/-! ## TTL cache (`kenpom_client._ttl_get` / `espn_client._ttl_get`)

Both clients define the identical function over a process-wide dict
`_cache : key -> (data, timestamp)`.  The fetch callback is modelled by
the value it would return plus a boolean recording whether it was
invoked; `time.time()` is the explicit `now` argument. -/

/-- The cache dict for values of type `α`. -/
abbrev Cache (α : Type) := List (String × α × ℚ)

/-- Dict assignment `_cache[key] = (data, now)`. -/
def setEntry (c : Cache α) (key : String) (data : α) (now : ℚ) : Cache α :=
  (key, data, now) :: c.filter (fun e => !(e.1 == key))

/-- `_ttl_get(cache_key, fetch_fn, ttl)` at time `now`, over explicit
cache state: returns (result, new cache state, whether fetch_fn ran). -/
def ttl_get (c : Cache α) (key : String) (now : ℚ) (fetched : α) (ttl : ℚ) :
    α × Cache α × Bool :=
  match c.lookup key with
  | some (data, tstamp) =>
    if now - tstamp < ttl then (data, c, false)
    else (fetched, setEntry c key fetched now, true)
  | none => (fetched, setEntry c key fetched now, true)

/-- A sequence of `_ttl_get` calls for one key at the given times (each
with the value its fetch would produce); returns the final cache, the
results, and how many times the fetch ran. -/
def runGets (key : String) (ttl : ℚ) :
    Cache α → List (ℚ × α) → Cache α × List α × ℕ
  | c, [] => (c, [], 0)
  | c, (now, fv) :: rest =>
    let r := ttl_get c key now fv ttl
    let rec' := runGets key ttl r.2.1 rest
    (rec'.1, r.1 :: rec'.2.1, (if r.2.2 then 1 else 0) + rec'.2.2)

/-! ## Rounding bounds -/

/-- Round-half-even never drops below the floor. -/
theorem floor_le_rhe (q : ℚ) : ⌊q⌋ ≤ rhe q := by
  unfold rhe
  split_ifs <;> omega

/-- Round-half-even of a value bounded by an integer stays bounded. -/
theorem rhe_le_of_le {q : ℚ} {B : ℤ} (h : q ≤ B) : rhe q ≤ B := by
  have hfl : ⌊q⌋ ≤ B := by
    calc ⌊q⌋ ≤ ⌊(B : ℚ)⌋ := Int.floor_le_floor h
    _ = B := Int.floor_intCast B
  unfold rhe
  split_ifs with h1 h2 h3
  · exact hfl
  · have hq : (⌊q⌋ : ℚ) < q := by linarith
    have : ⌊q⌋ < B := by
      have : (⌊q⌋ : ℚ) < (B : ℚ) := lt_of_lt_of_le hq h
      exact_mod_cast this
    omega
  · exact hfl
  · have hq : (⌊q⌋ : ℚ) < q := by
      have : q - ⌊q⌋ = 1 / 2 := le_antisymm (not_lt.mp h2) (not_lt.mp h1)
      linarith
    have : ⌊q⌋ < B := by
      have : (⌊q⌋ : ℚ) < (B : ℚ) := lt_of_lt_of_le hq h
      exact_mod_cast this
    omega

/-- Round-half-even of a non-negative value is non-negative. -/
theorem rhe_nonneg {q : ℚ} (h : 0 ≤ q) : 0 ≤ rhe q := by
  have : (0 : ℤ) ≤ ⌊q⌋ := Int.floor_nonneg.mpr h
  calc (0 : ℤ) ≤ ⌊q⌋ := this
  _ ≤ rhe q := floor_le_rhe q

/-- `roundTo` preserves non-negativity. -/
theorem roundTo_nonneg {q : ℚ} (d : ℕ) (h : 0 ≤ q) : 0 ≤ roundTo q d := by
  unfold roundTo
  have h1 : (0 : ℚ) ≤ (rhe (q * 10 ^ d) : ℚ) := by
    exact_mod_cast rhe_nonneg (by positivity)
  positivity

/-- `roundTo` preserves an integer upper bound. -/
theorem roundTo_le {q : ℚ} {B : ℤ} (d : ℕ) (h : q ≤ B) : roundTo q d ≤ B := by
  unfold roundTo
  rw [div_le_iff₀ (by positivity)]
  have hb : q * 10 ^ d ≤ ((B * 10 ^ d : ℤ) : ℚ) := by
    push_cast
    have : (0 : ℚ) < 10 ^ d := by positivity
    nlinarith
  have := rhe_le_of_le hb
  calc (rhe (q * 10 ^ d) : ℚ) ≤ ((B * 10 ^ d : ℤ) : ℚ) := by exact_mod_cast this
  _ = (B : ℚ) * 10 ^ d := by push_cast; ring

/-! ## C9 — TTL cache -/

/-- C9: once a fetch has stored `(v, tstamp)` under a key, (1) any get at
a time within the TTL of `tstamp` returns `v` without running the fetch
and leaves the cache unchanged, (2) a get once the entry is at least TTL
old runs the fetch again and replaces the entry with the fresh value and
time, and (3) a whole sequence of gets within the TTL window returns the
stored value every time with zero fetches. -/
theorem ttl_cache_at_most_one_fetch {α : Type} (c : Cache α) (key : String)
    (v : α) (tstamp ttl : ℚ) (h : c.lookup key = some (v, tstamp)) :
    (∀ (now : ℚ) (f : α), now - tstamp < ttl →
      ttl_get c key now f ttl = (v, c, false)) ∧
    (∀ (now : ℚ) (f : α), ttl ≤ now - tstamp →
      ttl_get c key now f ttl = (f, setEntry c key f now, true)) ∧
    (∀ gets : List (ℚ × α), (∀ p ∈ gets, p.1 - tstamp < ttl) →
      runGets key ttl c gets = (c, gets.map (fun _ => v), 0)) := by
  refine ⟨?_, ?_, ?_⟩
  · intro now f hfresh
    simp [ttl_get, h, hfresh]
  · intro now f hstale
    simp [ttl_get, h, not_lt.mpr hstale]
  · intro gets
    induction gets with
    | nil => intro _; simp [runGets]
    | cons p rest ih =>
      intro hall
      have hp : p.1 - tstamp < ttl := hall p (List.mem_cons_self p rest)
      have hrest : ∀ q ∈ rest, q.1 - tstamp < ttl :=
        fun q hq => hall q (List.mem_cons_of_mem p hq)
      simp only [runGets, ttl_get, h, if_pos hp, ih hrest]
      simp

/-- Witness for C9 at a concrete cache, key and get times. -/
theorem ttl_cache_at_most_one_fetch_witness :
    ttl_get [("k", ((7 : ℕ), (0 : ℚ)))] "k" 10 99 300 =
      (7, [("k", ((7 : ℕ), (0 : ℚ)))], false) ∧
    ttl_get [("k", ((7 : ℕ), (0 : ℚ)))] "k" 400 99 300 =
      (99, setEntry [("k", ((7 : ℕ), (0 : ℚ)))] "k" 99 400, true) ∧
    runGets "k" 300 [("k", ((7 : ℕ), (0 : ℚ)))] [(10, 99), (20, 98)] =
      ([("k", ((7 : ℕ), (0 : ℚ)))], [7, 7], 0) := by
  have h := ttl_cache_at_most_one_fetch [("k", ((7 : ℕ), (0 : ℚ)))] "k" 7 0 300 rfl
  refine ⟨h.1 10 99 (by norm_num), h.2.1 400 99 (by norm_num), ?_⟩
  have := h.2.2 [(10, 99), (20, 98)] (by
    intro p hp
    simp only [List.mem_cons, List.not_mem_nil, or_false] at hp
    rcases hp with h1 | h1 <;> subst h1 <;> norm_num)
  simpa using this

/-! ## C3 — rank coercion -/

/-- C3 counterexample: a rank field that is present but fails to parse is
coerced to 0, not to the claimed sentinel 999 — and 0 then *satisfies*
every lower-is-better `≤` threshold (here the ≤ 50 one). -/
theorem coerceRank_counterexample :
    coerceRank (some (PyVal.str "N/A")) = 0 ∧ (0 : ℤ) ≠ 999 ∧
    coerceRank (some (PyVal.str "N/A")) ≤ 50 := by
  have h : coerceRank (some (PyVal.str "N/A")) = 0 := by
    norm_num [coerceRank, safe_float, parsePyFloat, pyInt,
      show parseDec "N/A" = none from by decide]
  refine ⟨h, by norm_num, by rw [h]; norm_num⟩

/-- C3 amended: rank coercion is total (the embedding never raises) and
yields the sentinel 999 exactly when the key is missing — in which case
it indeed fails every `≤ 50` threshold — but a key that is present with
an unparseable value (non-numeric string, or null) is coerced to 0; a
present numeric value is truncated to an integer. -/
theorem coerceRank_amended :
    coerceRank none = 999 ∧
    ¬ coerceRank none ≤ 50 ∧
    (∀ q : ℚ, coerceRank (some (PyVal.num q)) = pyInt q) ∧
    (∀ s : String, parsePyFloat s = none → coerceRank (some (PyVal.str s)) = 0) ∧
    coerceRank (some PyVal.vNull) = 0 := by
  refine ⟨by norm_num [coerceRank, safe_float, pyInt], ?_, fun q => rfl, ?_, ?_⟩
  · have : coerceRank none = 999 := by norm_num [coerceRank, safe_float, pyInt]
    rw [this]; norm_num
  · intro s hs
    simp only [coerceRank, Option.getD_some, safe_float, hs, Option.getD_none]
    norm_num [pyInt]
  · norm_num [coerceRank, safe_float, pyInt]

/-- Witness for C3 amended at the concrete unparseable string `"--"`. -/
theorem coerceRank_amended_witness :
    parsePyFloat "--" = none ∧ coerceRank (some (PyVal.str "--")) = 0 := by
  have hp : parsePyFloat "--" = none := by
    simp [parsePyFloat, show parseDec "--" = none from by decide]
  exact ⟨hp, coerceRank_amended.2.2.2.1 "--" hp⟩

/-! ## C5 — minutes parsing and the under-5-minutes filter -/

/-- C5 counterexample: the minutes string `"3:45"` is parsed by turning
the colon into a decimal point, so it parses to 3.45 — not to 3 as the
truncate-at-the-colon claim states. -/
theorem parseMin_counterexample :
    parseMin (PyVal.str "3:45") = 69 / 20 ∧ parseMin (PyVal.str "3:45") ≠ 3 := by
  have h : parseMin (PyVal.str "3:45") = 69 / 20 := by
    norm_num [parseMin, pyStrOf, safe_float, parsePyFloat,
      show colonToDot "3:45" = "3.45" from by decide,
      show parseDec "3.45" = some (345, 2) from by decide]
  refine ⟨h, by rw [h]; norm_num⟩

/-- C5 amended: every player row whose parsed minutes (colon replaced by
a decimal point, then float-parsed) come out under 5 is skipped entirely;
`"3:45"` parses to 3.45, which is under 5, so that player is excluded. -/
theorem grade_players_min_filter :
    (∀ row : Row, parseMin (rowGet row "MIN" (PyVal.str "0")) < 5 →
      gradeOne row = none) ∧
    parseMin (PyVal.str "3:45") = 69 / 20 ∧ (69 : ℚ) / 20 < 5 := by
  have hp : parseMin (PyVal.str "3:45") = 69 / 20 := by
    norm_num [parseMin, pyStrOf, safe_float, parsePyFloat,
      show colonToDot "3:45" = "3.45" from by decide,
      show parseDec "3.45" = some (345, 2) from by decide]
  refine ⟨?_, hp, by norm_num⟩
  intro row hmin
  simp only [gradeOne, if_pos hmin]

/-- Witness for C5: the `"3:45"` player row is excluded from the grades
table. -/
theorem grade_players_min_filter_witness :
    gradeOne [("MIN", PyVal.str "3:45")] = none ∧
    grade_players [[("MIN", PyVal.str "3:45")]] = [] := by
  have hlt : parseMin (rowGet [("MIN", PyVal.str "3:45")] "MIN" (PyVal.str "0")) < 5 := by
    have : rowGet [("MIN", PyVal.str "3:45")] "MIN" (PyVal.str "0") =
        PyVal.str "3:45" := rfl
    rw [this, grade_players_min_filter.2.1]
    norm_num
  have h := grade_players_min_filter.1 [("MIN", PyVal.str "3:45")] hlt
  exact ⟨h, by simp [grade_players, h]⟩

/-! ## C1 — post-game four-factors formulas -/

/-- The specification formulas applied to the totals a stats dict
actually resolves to, with the amended input rules: the turnover total
falls back from `turnovers` to `totalTurnovers` when the former is
missing or zero, and the points total falls back to
`2×FGM + 3PM + FTM` when the `points` field is missing, unparseable, or
zero (Python truthiness), not only when it is absent. -/
def specFFofRow (stats : Row) : FFFormulas :=
  specFourFactors (ts stats "fieldGoalsMade") (ts stats "fieldGoalsAttempted")
    (ts stats "threePointFieldGoalsMade") (ts stats "freeThrowsMade")
    (ts stats "freeThrowsAttempted") (ts stats "offensiveRebounds")
    (ts stats "defensiveRebounds") (resolveTov stats) (resolvePts stats)

/-- The box-score totals dict for the C1 counterexample: a `points` field
is *present* with value 0, while a field goal was made. -/
def c1stats : Row :=
  [("fieldGoalsMade", PyVal.num 1), ("fieldGoalsAttempted", PyVal.num 2),
   ("points", PyVal.num 0)]

/-- C1 counterexample: with a present-but-zero `points` field, the
claim's points rule keeps the 0 (the field is present), giving PPP = 0,
but the code's truthiness fallback derives points = 2×FGM = 2, giving
PPP = 1. -/
theorem compute_ff_points_counterexample :
    claimPoints c1stats = 0 ∧
    (specFourFactors 1 2 0 0 0 0 0 0 (claimPoints c1stats)).ppp = 0 ∧
    (compute_ff c1stats).ppp = 1 := by
  have hcp : claimPoints c1stats = 0 := by
    norm_num [claimPoints, show List.lookup "points" c1stats =
      some (PyVal.num 0) from rfl, safe_float]
  refine ⟨hcp, ?_, ?_⟩
  · rw [hcp]
    norm_num [specFourFactors, roundTo, rhe]
  · norm_num [compute_ff, roundTo, rhe, resolveTov, resolvePts, pyInt,
      show ts c1stats "fieldGoalsMade" = 1 from rfl,
      show ts c1stats "fieldGoalsAttempted" = 2 from rfl,
      show ts c1stats "threePointFieldGoalsMade" = 0 from rfl,
      show ts c1stats "threePointFieldGoalsAttempted" = 0 from rfl,
      show ts c1stats "freeThrowsMade" = 0 from rfl,
      show ts c1stats "freeThrowsAttempted" = 0 from rfl,
      show ts c1stats "offensiveRebounds" = 0 from rfl,
      show ts c1stats "defensiveRebounds" = 0 from rfl,
      show ts c1stats "turnovers" = 0 from rfl,
      show ts c1stats "totalTurnovers" = 0 from rfl,
      show ts c1stats "points" = 0 from rfl]

/-- C1 amended: for every box-score totals dict, `_compute_ff` returns
exactly the specification's fixed formulas — with the amended points and
turnovers input resolution of `specFFofRow` — each percentage rounded to
1 decimal, FT-rate and PPP to 3, and the possession count additionally
rounded to 1 decimal for output. -/
theorem compute_ff_formulas (stats : Row) :
    (compute_ff stats).efg_pct = (specFFofRow stats).efg_pct ∧
    (compute_ff stats).to_pct = (specFFofRow stats).to_pct ∧
    (compute_ff stats).or_pct = (specFFofRow stats).or_pct ∧
    (compute_ff stats).ft_rate = (specFFofRow stats).ft_rate ∧
    (compute_ff stats).ppp = (specFFofRow stats).ppp ∧
    (compute_ff stats).possessions = roundTo (specFFofRow stats).possessions 1 := by
  unfold compute_ff specFFofRow specFourFactors
  set fgm := ts stats "fieldGoalsMade" with hfgm
  set fga := ts stats "fieldGoalsAttempted" with hfga
  set fg3m := ts stats "threePointFieldGoalsMade" with hfg3m
  set ftm := ts stats "freeThrowsMade" with hftm
  set fta := ts stats "freeThrowsAttempted" with hfta
  set oreb := ts stats "offensiveRebounds" with horeb
  set dreb := ts stats "defensiveRebounds" with hdreb
  set tov := resolveTov stats with htov
  set pts := resolvePts stats with hpts
  by_cases h1 : fga = 0
  · by_cases h2 : oreb + dreb = 0 <;>
      simp [h1, h2, mul_comm]
  · by_cases h2 : oreb + dreb = 0 <;>
      by_cases h3 : fga - oreb + tov + 19 / 40 * fta = 0 <;>
      simp [h1, h2, h3, mul_comm, ite_mul, zero_mul, div_mul_eq_mul_div]

/-! ## C8 — ranges of the computed four factors -/

/-- A guarded ratio is in [0,1] when numerator and denominator are in
order whenever the denominator is non-zero. -/
theorem ratio_bound {a b : ℚ} (ha : 0 ≤ a) (h : b ≠ 0 → 0 ≤ b ∧ a ≤ b) :
    0 ≤ (if b ≠ 0 then a / b else 0) ∧ (if b ≠ 0 then a / b else 0) ≤ 1 := by
  split_ifs with hb
  · obtain ⟨hb0, hab⟩ := h hb
    have hb' : 0 < b := lt_of_le_of_ne hb0 (Ne.symm hb)
    exact ⟨div_nonneg ha hb0, (div_le_one hb').mpr hab⟩
  · norm_num

/-- A guarded ratio of non-negatives is non-negative. -/
theorem ratio_nonneg {a b : ℚ} (ha : 0 ≤ a) (hb : 0 ≤ b) :
    0 ≤ (if b ≠ 0 then a / b else 0) := by
  split_ifs with h
  · exact div_nonneg ha hb
  · exact le_refl 0

/-- A percentage built from a [0,1] ratio stays in [0,100] after
1-decimal rounding. -/
theorem roundTo_pct_bound {x : ℚ} (d : ℕ) (h0 : 0 ≤ x) (h1 : x ≤ 1) :
    0 ≤ roundTo (x * 100) d ∧ roundTo (x * 100) d ≤ 100 := by
  refine ⟨roundTo_nonneg d (by positivity), ?_⟩
  have hle : x * 100 ≤ ((100 : ℤ) : ℚ) := by push_cast; nlinarith
  have := roundTo_le d hle
  exact_mod_cast this

/-- C8 amended: when all counting totals are non-negative AND the made
totals are consistent with the attempts (FGM + ½·3PM ≤ FGA, so that eFG
cannot exceed 100%) AND the offensive rebounds do not exceed the field
goal attempts (so that the possession estimate cannot go negative), the
computed eFG%, TO% and OR% lie in [0,100] and FT-rate and PPP are
non-negative. -/
theorem compute_ff_ranges (stats : Row)
    (hfgm : 0 ≤ ts stats "fieldGoalsMade")
    (hfga : 0 ≤ ts stats "fieldGoalsAttempted")
    (hfg3 : 0 ≤ ts stats "threePointFieldGoalsMade")
    (hftm : 0 ≤ ts stats "freeThrowsMade")
    (hfta : 0 ≤ ts stats "freeThrowsAttempted")
    (horeb : 0 ≤ ts stats "offensiveRebounds")
    (hdreb : 0 ≤ ts stats "defensiveRebounds")
    (htov1 : 0 ≤ ts stats "turnovers")
    (htov2 : 0 ≤ ts stats "totalTurnovers")
    (hpoints : 0 ≤ ts stats "points")
    (hefg : ts stats "fieldGoalsMade" + (1/2) * ts stats "threePointFieldGoalsMade" ≤
      ts stats "fieldGoalsAttempted")
    (horb : ts stats "offensiveRebounds" ≤ ts stats "fieldGoalsAttempted") :
    (0 ≤ (compute_ff stats).efg_pct ∧ (compute_ff stats).efg_pct ≤ 100) ∧
    (0 ≤ (compute_ff stats).to_pct ∧ (compute_ff stats).to_pct ≤ 100) ∧
    (0 ≤ (compute_ff stats).or_pct ∧ (compute_ff stats).or_pct ≤ 100) ∧
    0 ≤ (compute_ff stats).ft_rate ∧
    0 ≤ (compute_ff stats).ppp := by
  have htov : 0 ≤ resolveTov stats := by
    unfold resolveTov; split_ifs <;> assumption
  have hpts : 0 ≤ resolvePts stats := by
    unfold resolvePts; split_ifs with h
    · exact hpoints
    · linarith
  have h40 : (0 : ℚ) ≤ 19 / 40 * ts stats "freeThrowsAttempted" :=
    mul_nonneg (by norm_num) hfta
  have hposs : 0 ≤ (if ts stats "fieldGoalsAttempted" ≠ 0 then
      ts stats "fieldGoalsAttempted" - ts stats "offensiveRebounds" +
        resolveTov stats + 19 / 40 * ts stats "freeThrowsAttempted" else 0) := by
    split_ifs with h
    · linarith
    · linarith
  have hefgb := ratio_bound (a := ts stats "fieldGoalsMade" +
      (1/2) * ts stats "threePointFieldGoalsMade")
    (b := ts stats "fieldGoalsAttempted") (by linarith)
    (fun _ => ⟨hfga, hefg⟩)
  have htob := ratio_bound (a := resolveTov stats)
    (b := if ts stats "fieldGoalsAttempted" ≠ 0 then
      ts stats "fieldGoalsAttempted" - ts stats "offensiveRebounds" +
        resolveTov stats + 19 / 40 * ts stats "freeThrowsAttempted" else 0)
    htov (by
      intro hb
      refine ⟨hposs, ?_⟩
      split_ifs with h
      · linarith
      · simp [h] at hb)
  have horb2 := ratio_bound (a := ts stats "offensiveRebounds")
    (b := ts stats "offensiveRebounds" + ts stats "defensiveRebounds")
    horeb (fun _ => ⟨by linarith, by linarith⟩)
  have hftr := ratio_nonneg (a := ts stats "freeThrowsMade")
    (b := ts stats "fieldGoalsAttempted") hftm hfga
  have hppp := ratio_nonneg (a := resolvePts stats)
    (b := if ts stats "fieldGoalsAttempted" ≠ 0 then
      ts stats "fieldGoalsAttempted" - ts stats "offensiveRebounds" +
        resolveTov stats + 19 / 40 * ts stats "freeThrowsAttempted" else 0)
    hpts hposs
  exact ⟨roundTo_pct_bound 1 hefgb.1 hefgb.2,
    roundTo_pct_bound 1 htob.1 htob.2,
    roundTo_pct_bound 1 horb2.1 horb2.2,
    roundTo_nonneg 3 hftr,
    roundTo_nonneg 3 hppp⟩

/-- The box-score totals dict for the C8 counterexample: every counting
stat is non-negative, yet two made threes on two attempts give
eFG% = 150, and five offensive rebounds against two attempts drive the
possession estimate negative, making TO% and PPP negative. -/
def c8stats : Row :=
  [("fieldGoalsMade", PyVal.num 2), ("fieldGoalsAttempted", PyVal.num 2),
   ("threePointFieldGoalsMade", PyVal.num 2), ("offensiveRebounds", PyVal.num 5),
   ("turnovers", PyVal.num 1)]

/-- C8 counterexample: non-negative counting stats alone do not bound
the outputs — this input gives eFG% = 150 > 100, TO% = −50 < 0 and
PPP = −3 < 0. -/
theorem compute_ff_ranges_counterexample :
    (compute_ff c8stats).efg_pct = 150 ∧
    (compute_ff c8stats).to_pct = -50 ∧
    (compute_ff c8stats).ppp = -3 := by
  norm_num [compute_ff, roundTo, rhe, resolveTov, resolvePts,
    show ts c8stats "fieldGoalsMade" = 2 from rfl,
    show ts c8stats "fieldGoalsAttempted" = 2 from rfl,
    show ts c8stats "threePointFieldGoalsMade" = 2 from rfl,
    show ts c8stats "threePointFieldGoalsAttempted" = 0 from rfl,
    show ts c8stats "freeThrowsMade" = 0 from rfl,
    show ts c8stats "freeThrowsAttempted" = 0 from rfl,
    show ts c8stats "offensiveRebounds" = 5 from rfl,
    show ts c8stats "defensiveRebounds" = 0 from rfl,
    show ts c8stats "turnovers" = 1 from rfl,
    show ts c8stats "points" = 0 from rfl]

/-- The realistic box-score totals used as the C8 witness (the spec's own
worked example). -/
def c8ex : Row :=
  [("fieldGoalsMade", PyVal.num 28), ("fieldGoalsAttempted", PyVal.num 59),
   ("threePointFieldGoalsMade", PyVal.num 8),
   ("threePointFieldGoalsAttempted", PyVal.num 20),
   ("freeThrowsMade", PyVal.num 14), ("freeThrowsAttempted", PyVal.num 18),
   ("offensiveRebounds", PyVal.num 10), ("defensiveRebounds", PyVal.num 25),
   ("turnovers", PyVal.num 11)]

/-- Witness for C8 amended at the spec's worked example. -/
theorem compute_ff_ranges_witness :
    (0 ≤ (compute_ff c8ex).efg_pct ∧ (compute_ff c8ex).efg_pct ≤ 100) ∧
    (0 ≤ (compute_ff c8ex).to_pct ∧ (compute_ff c8ex).to_pct ≤ 100) ∧
    (0 ≤ (compute_ff c8ex).or_pct ∧ (compute_ff c8ex).or_pct ≤ 100) ∧
    0 ≤ (compute_ff c8ex).ft_rate ∧
    0 ≤ (compute_ff c8ex).ppp := by
  apply compute_ff_ranges c8ex <;>
    norm_num [show ts c8ex "fieldGoalsMade" = 28 from rfl,
      show ts c8ex "fieldGoalsAttempted" = 59 from rfl,
      show ts c8ex "threePointFieldGoalsMade" = 8 from rfl,
      show ts c8ex "freeThrowsMade" = 14 from rfl,
      show ts c8ex "freeThrowsAttempted" = 18 from rfl,
      show ts c8ex "offensiveRebounds" = 10 from rfl,
      show ts c8ex "defensiveRebounds" = 25 from rfl,
      show ts c8ex "turnovers" = 11 from rfl,
      show ts c8ex "totalTurnovers" = 0 from rfl,
      show ts c8ex "points" = 0 from rfl]

/-! ## C6 — callout list is deterministic, sorted, and capped at 8 -/

/-- C6: for every pair of profiles the callout engine returns at most 8
callouts, sorted by ascending priority.  (Determinism is definitional
here: the engine is a pure function of its inputs, with no source of
randomness in the embedding or the source.) -/
theorem generate_callouts_sorted_capped
    (hov aov hff aff hsh ash hht aht : StrMap) (home_team away_team : String) :
    (generate_callouts hov aov hff aff hsh ash hht aht home_team away_team).length ≤ 8 ∧
    List.Sorted calloutLE
      (generate_callouts hov aov hff aff hsh ash hht aht home_team away_team) := by
  unfold generate_callouts
  constructor
  · rw [List.length_take]
    exact Nat.min_le_left _ _
  · exact (List.sorted_insertionSort calloutLE _).sublist (List.take_sublist _ _)

/-! ## C4 — home/away symmetry of the callout rules -/

/-- C4 amended: the two-branch rules 2 (rebounding edge), 3 (3PT
vulnerability) and 4 (turnover battle) are symmetric — swapping the
profiles turns each home branch into the corresponding away branch —
while rules 7 (experience) and 8 (assist rate) read only the home side
(see the swap counterexample), so the claimed symmetry holds exactly for
rules 2–4. -/
theorem callout_rules_2_3_4_symmetric (hff aff hsh ash : StrMap) :
    (fires_reb_home hff aff ↔ fires_reb_away aff hff) ∧
    (fires_3pt_home hsh ash ↔ fires_3pt_away ash hsh) ∧
    (fires_to_home hff aff ↔ fires_to_away aff hff) :=
  ⟨Iff.rfl, Iff.rfl, Iff.rfl⟩

/-- Height/experience rows for the C4 counterexample: the away side has
the experience edge. -/
def c4row_h : Row := [("Exp", PyVal.num 1)]

/-- Away experience row (see `c4row_h`). -/
def c4row_a : Row := [("Exp", PyVal.num 2)]

/-- Misc-stats row keeping rules 3 and 8 quiet (ranks far above 50). -/
def c4ms : Row := [("RankFG3Pct", PyVal.num 300), ("RankARate", PyVal.num 300)]

/-- C4 counterexample: with identical profiles except that the *away*
side has the experience edge, the engine emits nothing, while the
swapped call (profiles and names exchanged) emits one callout — rule 7
reads only the home side, so swapping does not mirror the output. -/
theorem callouts_swap_counterexample :
    generate_callouts (overviewDict []) (overviewDict []) (ffDict []) (ffDict [])
      (shootingDict c4ms []) (shootingDict c4ms []) (htDict c4row_h) (htDict c4row_a)
      "HOME" "AWAY" = [] ∧
    (generate_callouts (overviewDict []) (overviewDict []) (ffDict []) (ffDict [])
      (shootingDict c4ms []) (shootingDict c4ms []) (htDict c4row_a) (htDict c4row_h)
      "AWAY" "HOME").length = 1 := by
  have e1 : item (overviewDict []) "tempo" = 0 := rfl
  have e2 : item (overviewDict []) "adj_em" = 0 := rfl
  have e3 : item (ffDict []) "or_pct" = 0 := rfl
  have e4 : item (ffDict []) "d_or" = 0 := rfl
  have e5 : item (ffDict []) "to_pct" = 0 := rfl
  have e6 : item (ffDict []) "d_to" = 0 := rfl
  have e7 : item (ffDict []) "ft_rate" = 0 := rfl
  have e8a : item (shootingDict c4ms []) "rank_fg3" =
      ((coerceRank (some (PyVal.num 300)) : ℤ) : ℚ) := rfl
  have e8b : ((coerceRank (some (PyVal.num 300)) : ℤ) : ℚ) = 300 := by
    norm_num [coerceRank, safe_float, pyInt]
  have e8 : item (shootingDict c4ms []) "rank_fg3" = 300 := e8a.trans e8b
  have e9 : item (shootingDict c4ms []) "assist_rate" = 0 := rfl
  have e10 : item (htDict c4row_h) "experience" = 1 := rfl
  have e11 : item (htDict c4row_a) "experience" = 2 := rfl
  constructor
  · norm_num [generate_callouts, rawCallouts, fires_pace, fires_reb_home,
      fires_reb_away, fires_3pt_home, fires_3pt_away, fires_to_home,
      fires_to_away, fires_ftr_home, fires_em, fires_exp_home,
      fires_assist_home, e1, e2, e3, e4, e5, e6, e7, e8, e9, e10, e11,
      List.insertionSort]
  · norm_num [generate_callouts, rawCallouts, fires_pace, fires_reb_home,
      fires_reb_away, fires_3pt_home, fires_3pt_away, fires_to_home,
      fires_to_away, fires_ftr_home, fires_em, fires_exp_home,
      fires_assist_home, e1, e2, e3, e4, e5, e6, e7, e8, e9, e10, e11,
      List.insertionSort, List.orderedInsert]

/-! ## C2 — the 3PT callout's defensive-rank guard -/

/-- Misc-stats row for the C2 failing input: an elite three-point
shooting side (rank 10, 40%). -/
def c2ms_h : Row := [("FG3Pct", PyVal.num 40), ("RankFG3Pct", PyVal.num 10)]

/-- Four-factors row for the C2 failing input: the opponent has an
*elite* defensive eFG% allowed rank (10 — far below the 200 threshold the
rule is supposed to require). -/
def c2ff_a : Row := [("RankDeFG_Pct", PyVal.num 10)]

/-- Misc-stats row for the C2 away side keeping its 3PT rank quiet. -/
def c2ms_a : Row := [("RankFG3Pct", PyVal.num 300)]

/-- C2: the priority-1 three-point callout fires even though the
opposing side's defensive eFG%-allowed rank is 10 (≪ 200).  The coded
guard `away_sh.get("rank_defg", 999) >= 200` reads the *shooting* dict,
which never carries a `rank_defg` key (`mget_shootingDict_rank_defg`),
so it always sees the 999 default and always passes — and the emitted
detail text renders the rank as `?`. -/
theorem fires_3pt_without_defense_check :
    item (ffDict c2ff_a) "rank_defg" = 10 ∧ (10 : ℚ) < 200 ∧
    generate_callouts (overviewDict []) (overviewDict []) (ffDict []) (ffDict c2ff_a)
      (shootingDict c2ms_h []) (shootingDict c2ms_a []) (htDict []) (htDict [])
      "HOME" "AWAY" =
      [⟨1, "🎯 HOME 3PT Attack",
        "HOME shoots 40.0% from 3 (#10 nationally). AWAY struggles defending the arc (#? eFG% allowed). Prioritize catch-and-shoot opportunities."⟩] := by
  have mr1 : item (ffDict c2ff_a) "rank_defg" =
      ((coerceRank (some (PyVal.num 10)) : ℤ) : ℚ) := rfl
  have mr2 : ((coerceRank (some (PyVal.num 10)) : ℤ) : ℚ) = 10 := by
    norm_num [coerceRank, safe_float, pyInt]
  have mrank : item (ffDict c2ff_a) "rank_defg" = 10 := mr1.trans mr2
  have hfg3a : item (shootingDict c2ms_h []) "rank_fg3" =
      ((coerceRank (some (PyVal.num 10)) : ℤ) : ℚ) := rfl
  have hfg3 : item (shootingDict c2ms_h []) "rank_fg3" = 10 := hfg3a.trans mr2
  have hpct : item (shootingDict c2ms_h []) "fg3_pct" = 40 := rfl
  have hafg3a : item (shootingDict c2ms_a []) "rank_fg3" =
      ((coerceRank (some (PyVal.num 300)) : ℤ) : ℚ) := rfl
  have hafg3b : ((coerceRank (some (PyVal.num 300)) : ℤ) : ℚ) = 300 := by
    norm_num [coerceRank, safe_float, pyInt]
  have hafg3 : item (shootingDict c2ms_a []) "rank_fg3" = 300 := hafg3a.trans hafg3b
  have hnod : (shootingDict c2ms_a []).lookup "rank_defg" = none := rfl
  have e1 : item (overviewDict []) "tempo" = 0 := rfl
  have e2 : item (overviewDict []) "adj_em" = 0 := rfl
  have e3 : item (ffDict []) "or_pct" = 0 := rfl
  have e4 : item (ffDict []) "d_or" = 0 := rfl
  have e4a : item (ffDict c2ff_a) "or_pct" = 0 := rfl
  have e4b : item (ffDict c2ff_a) "d_or" = 0 := rfl
  have e5 : item (ffDict []) "to_pct" = 0 := rfl
  have e6 : item (ffDict []) "d_to" = 0 := rfl
  have e6a : item (ffDict c2ff_a) "to_pct" = 0 := rfl
  have e6b : item (ffDict c2ff_a) "d_to" = 0 := rfl
  have e7 : item (ffDict []) "ft_rate" = 0 := rfl
  have e9 : item (shootingDict c2ms_h []) "assist_rate" = 0 := rfl
  have e10 : item (htDict []) "experience" = 0 := rfl
  have hfmt : formatFixed 1 (40 : ℚ) = "40.0" := by
    have h : rhe (40 * 10 ^ 1) = 400 := by norm_num [rhe]
    rw [formatFixed, h]; decide
  have hshow : showIntQ (10 : ℚ) = "10" := by
    have h : pyInt (10 : ℚ) = 10 := by norm_num [pyInt]
    rw [showIntQ, h]; decide
  refine ⟨mrank, by norm_num, ?_⟩
  norm_num [generate_callouts, rawCallouts, fires_pace, fires_reb_home,
    fires_reb_away, fires_3pt_home, fires_3pt_away, fires_to_home,
    fires_to_away, fires_ftr_home, fires_em, fires_exp_home,
    fires_assist_home, mget_shootingDict_rank_defg, hfg3, hpct, hafg3, hnod,
    e1, e2, e3, e4, e4a, e4b, e5, e6, e6a, e6b, e7, e9, e10, hfmt, hshow,
    List.insertionSort, List.orderedInsert]
  exact ⟨by decide, by decide⟩

/-! ## C7 — narrative builder at 78–65 -/

/-- SJU four factors for the C7 check (eFG% 55.0). -/
def c7sju : FFOut :=
  { efg_pct := 55, to_pct := 18, or_pct := 30, ft_rate := 1/4,
    possessions := 70, ppp := 11/10, pts := 78, fg_made := 0, fg_att := 0,
    fg3_made := 0, fg3_att := 0, ft_made := 0, ft_att := 0, oreb := 0, tov := 0 }

/-- Opponent four factors for the C7 check (eFG% 42.0). -/
def c7opp : FFOut :=
  { efg_pct := 42, to_pct := 18, or_pct := 30, ft_rate := 1/4,
    possessions := 70, ppp := 9/10, pts := 65, fg_made := 0, fg_att := 0,
    fg3_made := 0, fg3_att := 0, ft_made := 0, ft_att := 0, oreb := 0, tov := 0 }

/-- C7: with scores 78 and 65 the lead sentence reads exactly
`"SJU won 78-65 (margin: 13 pts). …"` (win because 78 > 65, margin the
absolute difference), and with eFG% 55.0 vs 42.0 the shooting sentence
fires (gap 13 ≥ 5) and names the SJU side as the leader. -/
theorem narrative_78_65 :
    (narrative_lines "SJU" "OPP" (PyNum.pint 78) (PyNum.pint 65) c7sju c7opp
      (ff_battle c7sju c7opp)).head? =
      some "SJU won 78-65 (margin: 13 pts). SJU won 1 of 4 Four Factors." ∧
    (narrative_lines "SJU" "OPP" (PyNum.pint 78) (PyNum.pint 65) c7sju c7opp
      (ff_battle c7sju c7opp))[1]? =
      some "Shooting was the decisive factor: SJU shot 55.0% eFG% vs 42.0% — a 13.0-point gap." := by
  have hf55 : formatFixed 1 (55 : ℚ) = "55.0" := by
    rw [formatFixed, show rhe ((55 : ℚ) * 10 ^ 1) = 550 from by norm_num [rhe]]
    decide
  have hf42 : formatFixed 1 (42 : ℚ) = "42.0" := by
    rw [formatFixed, show rhe ((42 : ℚ) * 10 ^ 1) = 420 from by norm_num [rhe]]
    decide
  have hf13 : formatFixed 1 (13 : ℚ) = "13.0" := by
    rw [formatFixed, show rhe ((13 : ℚ) * 10 ^ 1) = 130 from by norm_num [rhe]]
    decide
  norm_num [narrative_lines, ff_battle, factor_winner, c7sju, c7opp,
    PyNum.toQ, PyNum.sub, pyAbs, pyNumStr,
    show pyIn "SJU" "SJU ✅" = true from by decide,
    show pyIn "SJU" "OPP ✅" = false from by decide,
    show max (55 : ℚ) 42 = 55 from by norm_num,
    show min (55 : ℚ) 42 = 42 from by norm_num,
    hf55, hf42, hf13,
    show Int.repr 78 = "78" from by decide,
    show Int.repr 65 = "65" from by decide,
    show Int.repr |(78 : ℤ) - 65| = "13" from by decide]
  exact ⟨by decide, by decide⟩

/-! ## C10 — post-game report when neither side is SJU -/

/-- C10 amended: for every non-empty box score in which neither side's
name contains the configured team name (case-insensitively), the report
is still produced (the embedding is total — nothing raises): the SJU
side resolves to empty data (score 0, all-zero four factors, empty
grades table), the opponent is taken to be the home side, and — provided
the home side's score does not parse negative — the result is "L". -/
theorem postgame_no_sju_side (gid : String) (box : Box) (sjuName : String)
    (hne : boxNonempty box)
    (hh : sideMatches box.home sjuName = false)
    (ha : sideMatches box.away sjuName = false)
    (hs : 0 ≤ safe_float (sideScore box.home)) :
    (generate_postgame_report gid box sjuName).result = "L" ∧
    (generate_postgame_report gid box sjuName).sju_score = 0 ∧
    (generate_postgame_report gid box sjuName).sju_team = sjuName ∧
    (generate_postgame_report gid box sjuName).opp_team = sideName box.home "Opponent" ∧
    (generate_postgame_report gid box sjuName).sju_ff =
      { efg_pct := 0, to_pct := 0, or_pct := 0, ft_rate := 0, possessions := 0,
        ppp := 0, pts := 0, fg_made := 0, fg_att := 0, fg3_made := 0,
        fg3_att := 0, ft_made := 0, ft_att := 0, oreb := 0, tov := 0 } ∧
    (generate_postgame_report gid box sjuName).player_grades = [] := by
  have hz : compute_ff ([] : Row) =
      { efg_pct := 0, to_pct := 0, or_pct := 0, ft_rate := 0, possessions := 0,
        ppp := 0, pts := 0, fg_made := 0, fg_att := 0, fg3_made := 0,
        fg3_att := 0, ft_made := 0, ft_att := 0, oreb := 0, tov := 0 } := by
    norm_num [compute_ff, resolveTov, resolvePts, roundTo, rhe, pyInt,
      show ts ([] : Row) "fieldGoalsMade" = 0 from rfl,
      show ts ([] : Row) "fieldGoalsAttempted" = 0 from rfl,
      show ts ([] : Row) "threePointFieldGoalsMade" = 0 from rfl,
      show ts ([] : Row) "threePointFieldGoalsAttempted" = 0 from rfl,
      show ts ([] : Row) "freeThrowsMade" = 0 from rfl,
      show ts ([] : Row) "freeThrowsAttempted" = 0 from rfl,
      show ts ([] : Row) "offensiveRebounds" = 0 from rfl,
      show ts ([] : Row) "defensiveRebounds" = 0 from rfl,
      show ts ([] : Row) "turnovers" = 0 from rfl,
      show ts ([] : Row) "totalTurnovers" = 0 from rfl,
      show ts ([] : Row) "points" = 0 from rfl]
  refine ⟨?_, ?_, ?_, ?_, ?_, ?_⟩ <;>
    simp only [generate_postgame_report, hh, ha, Bool.false_eq_true, if_false,
      show (decide ((none : Option Bool) = some true)) = false from rfl,
      sideStats, sidePlayers, sideScore, sideName, safe_float, grade_players,
      List.filterMap_nil]
  · exact if_neg (not_lt.mpr hs)
  · norm_num [pyInt]
  · exact hz

/-- Home side for the C10 counterexample box. -/
def c10home : Side :=
  { name := "Duke", score := some (PyVal.str "-1"), team_stats := [], players := [] }

/-- Away side for the C10 counterexample box. -/
def c10away : Side :=
  { name := "UNC", score := some (PyVal.str "70"), team_stats := [], players := [] }

/-- The C10 counterexample box: neither side is SJU and the home side's
score parses to −1. -/
def c10box : Box := { home := some c10home, away := some c10away }

/-- C10 counterexample: with a home score parsing negative, the SJU side
(score 0) beats it, so the result is reported "W", not the claimed "L". -/
theorem postgame_negative_score_counterexample :
    sideMatches c10box.home "SJU" = false ∧
    sideMatches c10box.away "SJU" = false ∧
    (generate_postgame_report "g" c10box "SJU").result = "W" := by
  have hneg : safe_float (PyVal.str "-1") = -1 := by
    norm_num [safe_float, parsePyFloat, show parseDec "-1" = some (-1, 0) from by decide]
  refine ⟨by decide, by decide, ?_⟩
  show (if safe_float (sideScore (none : Option Side)) >
      safe_float (sideScore c10box.home) then "W" else "L") = "W"
  rw [if_pos]
  rw [show sideScore (none : Option Side) = PyVal.num 0 from rfl,
    show sideScore c10box.home = PyVal.str "-1" from rfl, hneg]
  norm_num [safe_float]

/-- Home side for the C10 witness box. -/
def c10whome : Side :=
  { name := "Duke", score := some (PyVal.num 70), team_stats := [], players := [] }

/-- The C10 witness box: only a home side, named Duke with score 70. -/
def c10wbox : Box := { home := some c10whome, away := none }

/-- Witness for C10 amended at a concrete non-SJU box. -/
theorem postgame_no_sju_side_witness :
    boxNonempty c10wbox ∧
    (generate_postgame_report "g" c10wbox "SJU").result = "L" ∧
    (generate_postgame_report "g" c10wbox "SJU").opp_team = "Duke" ∧
    (generate_postgame_report "g" c10wbox "SJU").player_grades = [] := by
  have h := postgame_no_sju_side "g" c10wbox "SJU" (Or.inl rfl)
    (by decide) (by decide)
    (by rw [show sideScore c10wbox.home = PyVal.num 70 from rfl]; norm_num [safe_float])
  exact ⟨Or.inl rfl, h.1, by rw [h.2.2.2.1]; rfl, h.2.2.2.2.2⟩
